import Mathlib

/-!
Shallow embedding of the write-batching queue (`apps/tier-4-1m/src/writequeue.ts`)
and the circuit breaker (`cb.ts`) of the scaled-be repository, together with
theorems settling the specification claims about them.

Conventions of the embedding:
* JavaScript exceptions are modelled by `Except JSError`; a thrown
  `new Error(msg)` becomes the `JSError` value with `className = "Error"`.
* `Date.now()` is an explicit `now : Nat` argument (milliseconds).
* Methods that mutate `this` become functions from the state record to the
  new state record; `execute` additionally returns how many times the guarded
  function was invoked, making "the guarded call was never invoked" a
  provable statement.
-/

namespace ScaledBe

/-- JavaScript circuit-breaker state, from `type CircuitState` in `cb.ts`. -/
inductive CircuitState
  | CLOSED
  | OPEN
  | HALF_OPEN
deriving DecidableEq, Repr

/-- A JavaScript error value: its constructor class and its message.
`new Error(msg)` yields `⟨"Error", msg⟩`; a distinct error subclass would
carry a different `className`. -/
structure JSError where
  className : String
  message : String
deriving DecidableEq, Repr

/-- Mutable fields and configuration of `class CircuitBreaker` in `cb.ts`. -/
structure CircuitBreaker where
  name : String
  threshold : Nat
  timeout : Nat
  successThreshold : Nat
  state : CircuitState
  failures : Nat
  successCount : Nat
  lastFailureTime : Nat
deriving DecidableEq, Repr

/-- The constructor: `state = CLOSED`, counters zero, as in `cb.ts`. -/
def CircuitBreaker.mk0 (n : String) (threshold timeout successThreshold : Nat) :
    CircuitBreaker :=
  { name := n, threshold := threshold, timeout := timeout,
    successThreshold := successThreshold, state := CircuitState.CLOSED,
    failures := 0, successCount := 0, lastFailureTime := 0 }

/-- Method `onSuccess` of `cb.ts`: reset `failures`; in HALF_OPEN bump
`successCount` and close the circuit once it reaches `successThreshold`. -/
def onSuccess (cb : CircuitBreaker) : CircuitBreaker :=
  let cb1 := { cb with failures := 0 }
  if cb1.state = CircuitState.HALF_OPEN then
    let cb2 := { cb1 with successCount := cb1.successCount + 1 }
    if cb2.successCount ≥ cb2.successThreshold then
      { cb2 with state := CircuitState.CLOSED, successCount := 0 }
    else cb2
  else cb1

/-- Method `onFailure` of `cb.ts`: bump `failures`, stamp the failure time,
and open the circuit when the threshold is reached or when in HALF_OPEN. -/
def onFailure (cb : CircuitBreaker) (now : Nat) : CircuitBreaker :=
  let cb1 := { cb with failures := cb.failures + 1, lastFailureTime := now }
  if cb1.failures ≥ cb1.threshold ∨ cb1.state = CircuitState.HALF_OPEN then
    { cb1 with state := CircuitState.OPEN, successCount := 0 }
  else cb1

/-- The error thrown by `execute` when the circuit is open and no fallback is
given: `new Error("Circuit " + name + " is OPEN")` in `cb.ts`. -/
def openCircuitError (n : String) : JSError :=
  { className := "Error", message := "Circuit " ++ n ++ " is OPEN" }

/-- The `try`/`catch` body of `execute` in `cb.ts`: run the guarded call once,
apply the matching transition, and either return, use the fallback, or
rethrow.  The final `Nat` counts invocations of the guarded function. -/
def attemptCall {T : Type} (cb : CircuitBreaker) (now : Nat)
    (fn : Unit → Except JSError T) (fallback : Option T) :
    Except JSError T × CircuitBreaker × Nat :=
  match fn () with
  | Except.ok r => (Except.ok r, onSuccess cb, 1)
  | Except.error e =>
    match fallback with
    | some fb => (Except.ok fb, onFailure cb now, 1)
    | none => (Except.error e, onFailure cb now, 1)

/-- Method `execute` of `cb.ts`.  In OPEN: if `now - lastFailureTime` exceeds
`timeout`, move to HALF_OPEN and attempt the call; otherwise fast-fail with
the fallback or the synthetic open-circuit error, without invoking `fn`. -/
def execute {T : Type} (cb : CircuitBreaker) (now : Nat)
    (fn : Unit → Except JSError T) (fallback : Option T) :
    Except JSError T × CircuitBreaker × Nat :=
  if cb.state = CircuitState.OPEN then
    if now - cb.lastFailureTime > cb.timeout then
      attemptCall { cb with state := CircuitState.HALF_OPEN } now fn fallback
    else
      match fallback with
      | some fb => (Except.ok fb, cb, 0)
      | none => (Except.error (openCircuitError cb.name), cb, 0)
  else
    attemptCall cb now fn fallback

/-- Method `getState` of `cb.ts`: reads `this.state` and leaves the breaker
untouched, so it is the pair of the current state and the unchanged record. -/
def getState (cb : CircuitBreaker) : CircuitState × CircuitBreaker :=
  (cb.state, cb)

/-- The `User` row shape from `packages/types`: id, name, email, created_at. -/
structure User where
  id : Nat
  name : String
  email : String
  created_at : String
deriving DecidableEq, Repr

/-- The operation kind of a queued write, `"create" | "update" | "delete"`
in `writequeue.ts`. -/
inductive JobType
  | create
  | update
  | delete
deriving DecidableEq, Repr

/-- The `Partial<User>` payload actually used by the queue (name, email). -/
structure Payload where
  name : Option String
  email : Option String
deriving DecidableEq, Repr

/-- A `WriteJob` of `writequeue.ts` minus its `resolve`/`reject` callbacks;
what the callbacks do is reported separately as a `Resolution`. -/
structure WriteJob where
  jobType : JobType
  payload : Payload
  timestamp : Nat
deriving DecidableEq, Repr

/-- What happened to a job's promise during a flush: nothing, `resolve(v)`
(where `v` may be `undefined`, i.e. `none`, if `rows[i]` was out of range),
or `reject(e)`. -/
inductive Resolution
  | unresolved
  | resolvedWith (row : Option User)
  | rejectedWith (e : JSError)
deriving DecidableEq, Repr

/-- The mutable fields of `class WriteQueue`: the pending job list and the
`flushing` re-entrancy flag. -/
structure WQState where
  queue : List WriteJob
  flushing : Bool
deriving DecidableEq, Repr

/-- `BATCH_SIZE` of `writequeue.ts`. -/
def BATCH_SIZE : Nat := 100

/-- `FLUSH_INTERVAL_MS` of `writequeue.ts`. -/
def FLUSH_INTERVAL_MS : Nat := 50

/-- Method `enqueue` of `writequeue.ts`: push the job at the tail of the
pending list (the promise executor runs synchronously). -/
def enqueue (s : WQState) (j : WriteJob) : WQState :=
  { s with queue := s.queue ++ [j] }

/-- The effect of `creates.forEach((job, i) => job.resolve(rows[i]))` spread
over the whole batch: walking the batch in order, the `k`-th create job
(0-based, counting creates only) is resolved with `rows[k]`, and every
non-create job is left untouched. -/
def successOutcomes : List WriteJob → List User → Nat → List (WriteJob × Resolution)
  | [], _, _ => []
  | j :: js, rows, k =>
    if j.jobType = JobType.create then
      (j, Resolution.resolvedWith rows[k]?) :: successOutcomes js rows (k + 1)
    else
      (j, Resolution.unresolved) :: successOutcomes js rows k

/-- The state and per-job promise outcomes produced by one `flush` call. -/
structure FlushResult where
  st : WQState
  outcomes : List (WriteJob × Resolution)
deriving DecidableEq, Repr

/-- Method `flush` of `writequeue.ts`.  The storage backend (the multi-row
`INSERT ... RETURNING` on `DB_SHARDS[0]`) is abstracted as a function from
the batched create payloads to either the returned rows or a thrown error.
Mirrors the source: bail out if already flushing or empty; splice off at
most `BATCH_SIZE` jobs; if the batch has creates, submit them in one bulk
call and resolve each create positionally, or reject the whole batch on a
thrown error; the `finally` clause clears `flushing`. -/
def flush (s : WQState)
    (backend : List Payload → Except JSError (List User)) : FlushResult :=
  if s.flushing = true ∨ s.queue = [] then ⟨s, []⟩
  else
    let batch := s.queue.take BATCH_SIZE
    let rest := s.queue.drop BATCH_SIZE
    let creates := batch.filter (fun j => j.jobType = JobType.create)
    if creates = [] then
      ⟨⟨rest, false⟩, batch.map (fun j => (j, Resolution.unresolved))⟩
    else
      match backend (creates.map (fun j => j.payload)) with
      | Except.ok rows => ⟨⟨rest, false⟩, successOutcomes batch rows 0⟩
      | Except.error e =>
        ⟨⟨rest, false⟩, batch.map (fun j => (j, Resolution.rejectedWith e))⟩

/-- The resolutions of the create jobs of an outcome list, in batch order:
what the `creates` array of `flush` saw. -/
def createResolutions (l : List (WriteJob × Resolution)) : List Resolution :=
  l.filterMap (fun p => if p.1.jobType = JobType.create then some p.2 else none)

/-! ### Concrete fixtures used by witnesses and counterexamples -/

/-- A sample returned row. -/
def u0 : User := ⟨1, "ann", "ann@x", "t0"⟩

/-- A sample payload. -/
def p0 : Payload := ⟨some "ann", some "ann@x"⟩

/-- A sample create job. -/
def createJob0 : WriteJob := ⟨JobType.create, p0, 0⟩

/-- A sample update job. -/
def updateJob0 : WriteJob := ⟨JobType.update, p0, 0⟩

/-- A backend that always succeeds with no rows. -/
def emptyOkBackend : List Payload → Except JSError (List User) :=
  fun _ => Except.ok []

/-- A backend returning one row per submitted payload. -/
def okBackend : List Payload → Except JSError (List User) :=
  fun ps => Except.ok (ps.map (fun _ => u0))

/-- The error a failing guarded call throws in the fixtures. -/
def dbDownError : JSError := ⟨"Error", "db down"⟩

/-- A guarded call that always fails with `dbDownError`. -/
def failingCall : Unit → Except JSError User := fun _ => Except.error dbDownError

/-- A guarded call that always succeeds with `u0`. -/
def okCall : Unit → Except JSError User := fun _ => Except.ok u0

/-- The `dbCircuit` instance of `cb.ts` (`new CircuitBreaker("postgres", 3, 20_000, 2)`). -/
def dbCircuit : CircuitBreaker := CircuitBreaker.mk0 "postgres" 3 20000 2

/-- A freshly opened `dbCircuit`: three failures recorded, last at t=1000. -/
def cbOpen3 : CircuitBreaker :=
  { name := "postgres", threshold := 3, timeout := 20000, successThreshold := 2,
    state := CircuitState.OPEN, failures := 3, successCount := 0,
    lastFailureTime := 1000 }

/-- An open `dbCircuit` whose last failure is long past (t=0). -/
def cbOpenStale : CircuitBreaker := { cbOpen3 with lastFailureTime := 0 }

/-- A half-open `dbCircuit` one success away from closing. -/
def cbHalf1 : CircuitBreaker :=
  { name := "postgres", threshold := 3, timeout := 20000, successThreshold := 2,
    state := CircuitState.HALF_OPEN, failures := 0, successCount := 1,
    lastFailureTime := 1000 }

/-! ### Helper lemmas about the circuit breaker -/

theorem attemptCall_calls {T : Type} (cb : CircuitBreaker) (now : Nat)
    (fn : Unit → Except JSError T) (fb : Option T) :
    (attemptCall cb now fn fb).2.2 = 1 := by
  unfold attemptCall
  cases fn () with
  | ok r => rfl
  | error e => cases fb <;> rfl

theorem onSuccess_failures (cb : CircuitBreaker) : (onSuccess cb).failures = 0 := by
  unfold onSuccess
  dsimp only
  split
  · split <;> rfl
  · rfl

theorem onFailure_failures (cb : CircuitBreaker) (now : Nat) :
    (onFailure cb now).failures = cb.failures + 1 := by
  unfold onFailure
  dsimp only
  split <;> rfl

theorem onFailure_lastFailureTime (cb : CircuitBreaker) (now : Nat) :
    (onFailure cb now).lastFailureTime = now := by
  unfold onFailure
  dsimp only
  split <;> rfl

theorem execute_closed_failure {T : Type} (cb : CircuitBreaker) (now : Nat)
    (fn : Unit → Except JSError T) (e : JSError)
    (h : cb.state = CircuitState.CLOSED) (hf : fn () = Except.error e) :
    execute cb now fn none = (Except.error e, onFailure cb now, 1) := by
  unfold execute attemptCall
  rw [h]
  simp [hf]

theorem execute_closed_success {T : Type} (cb : CircuitBreaker) (now : Nat)
    (fn : Unit → Except JSError T) (v : T)
    (h : cb.state = CircuitState.CLOSED) (hs : fn () = Except.ok v) :
    execute cb now fn none = (Except.ok v, onSuccess cb, 1) := by
  unfold execute attemptCall
  rw [h]
  simp [hs]

theorem execute_halfopen_failure {T : Type} (cb : CircuitBreaker) (now : Nat)
    (fn : Unit → Except JSError T) (e : JSError)
    (h : cb.state = CircuitState.HALF_OPEN) (hf : fn () = Except.error e) :
    execute cb now fn none = (Except.error e, onFailure cb now, 1) := by
  unfold execute attemptCall
  rw [h]
  simp [hf]

theorem execute_halfopen_success {T : Type} (cb : CircuitBreaker) (now : Nat)
    (fn : Unit → Except JSError T) (v : T)
    (h : cb.state = CircuitState.HALF_OPEN) (hs : fn () = Except.ok v) :
    execute cb now fn none = (Except.ok v, onSuccess cb, 1) := by
  unfold execute attemptCall
  rw [h]
  simp [hs]

theorem onFailure_closed_cases (cb : CircuitBreaker) (now : Nat)
    (h : cb.state = CircuitState.CLOSED) :
    (cb.failures + 1 ≥ cb.threshold → (onFailure cb now).state = CircuitState.OPEN) ∧
    (cb.failures + 1 < cb.threshold → (onFailure cb now).state = CircuitState.CLOSED) := by
  unfold onFailure
  dsimp only
  constructor
  · intro hth
    rw [if_pos (Or.inl hth)]
  · intro hth
    rw [if_neg]
    · exact h
    · rw [h]
      simp
      omega

theorem onSuccess_halfopen_close (cb : CircuitBreaker)
    (h : cb.state = CircuitState.HALF_OPEN)
    (hth : cb.successCount + 1 ≥ cb.successThreshold) :
    onSuccess cb = { cb with state := CircuitState.CLOSED, failures := 0, successCount := 0 } := by
  unfold onSuccess
  dsimp only
  rw [if_pos h, if_pos hth]

theorem onSuccess_halfopen_stay (cb : CircuitBreaker)
    (h : cb.state = CircuitState.HALF_OPEN)
    (hth : cb.successCount + 1 < cb.successThreshold) :
    onSuccess cb = { cb with failures := 0, successCount := cb.successCount + 1 } := by
  unfold onSuccess
  dsimp only
  rw [if_pos h, if_neg (by omega)]

theorem onFailure_halfopen (cb : CircuitBreaker) (now : Nat)
    (h : cb.state = CircuitState.HALF_OPEN) :
    onFailure cb now = { cb with state := CircuitState.OPEN, failures := cb.failures + 1, successCount := 0, lastFailureTime := now } := by
  unfold onFailure
  dsimp only
  rw [if_pos (Or.inr h)]

/-! ### Circuit-breaker claims -/

/-- Claim C4: in the Closed state, each failing guarded call increments
`failures` and any successful guarded call resets `failures` to 0; when the
incremented count reaches `threshold`, the breaker opens and records the
failure timestamp, and below the threshold it stays Closed. -/
theorem C4_closed_failure_accounting {T : Type} (cb : CircuitBreaker) (now : Nat)
    (fnF fnS : Unit → Except JSError T) (e : JSError) (v : T)
    (h : cb.state = CircuitState.CLOSED)
    (hf : fnF () = Except.error e) (hs : fnS () = Except.ok v) :
    ((execute cb now fnF none).2.1.failures = cb.failures + 1) ∧
    ((execute cb now fnS none).2.1.failures = 0) ∧
    (cb.failures + 1 ≥ cb.threshold →
      (execute cb now fnF none).2.1.state = CircuitState.OPEN ∧
      (execute cb now fnF none).2.1.lastFailureTime = now) ∧
    (cb.failures + 1 < cb.threshold →
      (execute cb now fnF none).2.1.state = CircuitState.CLOSED) := by
  rw [execute_closed_failure cb now fnF e h hf, execute_closed_success cb now fnS v h hs]
  dsimp only
  refine ⟨onFailure_failures cb now, onSuccess_failures cb, ?_, ?_⟩
  · intro hth
    exact ⟨(onFailure_closed_cases cb now h).1 hth, onFailure_lastFailureTime cb now⟩
  · exact (onFailure_closed_cases cb now h).2

/-- Witness for C4 at the `dbCircuit` configuration with two prior failures:
a third failing call opens the breaker. -/
theorem C4_witness :
    (execute { dbCircuit with failures := 2 } 77 failingCall none).2.1.state =
      CircuitState.OPEN :=
  ((C4_closed_failure_accounting { dbCircuit with failures := 2 } 77 failingCall
    okCall dbDownError u0 rfl rfl rfl).2.2.1 (by decide)).1

/-- Claim C5: while Open and within `timeout` of the last failure, `execute`
never invokes the guarded function (call count 0); a supplied fallback's
result is returned, otherwise the synthetic open-circuit error is signalled,
and the breaker is left unchanged. -/
theorem C5_open_fast_fail {T : Type} (cb : CircuitBreaker) (now : Nat)
    (fn : Unit → Except JSError T) (fb : Option T)
    (h1 : cb.state = CircuitState.OPEN)
    (h2 : now - cb.lastFailureTime ≤ cb.timeout) :
    ((execute cb now fn fb).2.2 = 0) ∧
    (∀ v, fb = some v → execute cb now fn fb = (Except.ok v, cb, 0)) ∧
    (fb = none →
      execute cb now fn fb = (Except.error (openCircuitError cb.name), cb, 0)) := by
  have hnot : ¬ now - cb.lastFailureTime > cb.timeout := not_lt.mpr h2
  unfold execute
  rw [if_pos h1, if_neg hnot]
  refine ⟨?_, ?_, ?_⟩
  · cases fb <;> rfl
  · intro v hv
    rw [hv]
  · intro hv
    rw [hv]

/-- Witness for C5: an open breaker 500ms after its last failure fast-fails
without touching its state. -/
theorem C5_witness :
    execute cbOpen3 1500 failingCall none =
      (Except.error (openCircuitError "postgres"), cbOpen3, 0) :=
  (C5_open_fast_fail cbOpen3 1500 failingCall none rfl (by decide)).2.2 rfl

/-- Claim C6: when Open and `now - lastFailureTime > timeout`, the next
`execute` first moves the breaker to HalfOpen and then attempts the guarded
call, invoking it exactly once. -/
theorem C6_open_to_halfopen {T : Type} (cb : CircuitBreaker) (now : Nat)
    (fn : Unit → Except JSError T) (fb : Option T)
    (h1 : cb.state = CircuitState.OPEN)
    (h2 : now - cb.lastFailureTime > cb.timeout) :
    (execute cb now fn fb =
      attemptCall { cb with state := CircuitState.HALF_OPEN } now fn fb) ∧
    ((execute cb now fn fb).2.2 = 1) := by
  have he : execute cb now fn fb =
      attemptCall { cb with state := CircuitState.HALF_OPEN } now fn fb := by
    unfold execute
    rw [if_pos h1, if_pos h2]
  exact ⟨he, by rw [he]; exact attemptCall_calls _ now fn fb⟩

/-- Witness for C6: a stale open breaker at t=25000 (timeout 20000) invokes
the guarded function once. -/
theorem C6_witness : (execute cbOpenStale 25000 okCall none).2.2 = 1 :=
  (C6_open_to_halfopen cbOpenStale 25000 okCall none rfl (by decide)).2

/-- Claim C7: in HalfOpen, a successful guarded call increments
`successCount` and reaching `successThreshold` closes the breaker with both
counters reset; any failing guarded call immediately reopens it, resets
`successCount` to 0 and records a new failure timestamp. -/
theorem C7_halfopen_transitions {T : Type} (cb : CircuitBreaker) (now : Nat)
    (fnF fnS : Unit → Except JSError T) (e : JSError) (v : T)
    (h : cb.state = CircuitState.HALF_OPEN)
    (hf : fnF () = Except.error e) (hs : fnS () = Except.ok v) :
    ((execute cb now fnS none).2.1 = onSuccess cb) ∧
    ((execute cb now fnF none).2.1 = onFailure cb now) ∧
    (cb.successCount + 1 ≥ cb.successThreshold →
      onSuccess cb = { cb with state := CircuitState.CLOSED, failures := 0, successCount := 0 }) ∧
    (cb.successCount + 1 < cb.successThreshold →
      onSuccess cb = { cb with failures := 0, successCount := cb.successCount + 1 }) ∧
    (onFailure cb now = { cb with state := CircuitState.OPEN, failures := cb.failures + 1, successCount := 0, lastFailureTime := now }) := by
  refine ⟨?_, ?_, ?_, ?_, onFailure_halfopen cb now h⟩
  · rw [execute_halfopen_success cb now fnS v h hs]
  · rw [execute_halfopen_failure cb now fnF e h hf]
  · exact onSuccess_halfopen_close cb h
  · exact onSuccess_halfopen_stay cb h

/-- Witness for C7: one more success closes `cbHalf1` (threshold 2, one
success already banked). -/
theorem C7_witness :
    onSuccess cbHalf1 = { cbHalf1 with state := CircuitState.CLOSED, failures := 0, successCount := 0 } :=
  (C7_halfopen_transitions cbHalf1 99 failingCall okCall dbDownError u0
    rfl rfl rfl).2.2.1 (by decide)

/-- Counterexample to claim C9: the open-circuit error is built with the
plain `Error` constructor, so its class is the same `"Error"` as a plain
error thrown by the guarded call itself — the two are not distinguishable by
kind, only by message text. -/
theorem C9_counterexample :
    (execute cbOpen3 1500 failingCall none).1 =
      Except.error (openCircuitError "postgres") ∧
    (execute dbCircuit 0 failingCall none).1 = Except.error dbDownError ∧
    (openCircuitError "postgres").className = dbDownError.className :=
  ⟨rfl, rfl, rfl⟩

/-- Claim C9 as amended: the fast-fail error is a plain `Error` (class
`"Error"`) whose message `"Circuit <name> is OPEN"` is the only thing
distinguishing it from a guarded call's own failures. -/
theorem C9_plain_open_error {T : Type} (cb : CircuitBreaker) (now : Nat)
    (fn : Unit → Except JSError T)
    (h1 : cb.state = CircuitState.OPEN)
    (h2 : now - cb.lastFailureTime ≤ cb.timeout) :
    (execute cb now fn none).1 =
      Except.error ⟨"Error", "Circuit " ++ cb.name ++ " is OPEN"⟩ ∧
    (openCircuitError cb.name).className = "Error" := by
  have hnot : ¬ now - cb.lastFailureTime > cb.timeout := not_lt.mpr h2
  unfold execute
  rw [if_pos h1, if_neg hnot]
  exact ⟨rfl, rfl⟩

/-- Witness for the amended C9 at the concrete open breaker. -/
theorem C9_witness :
    (execute cbOpen3 1500 failingCall none).1 =
      Except.error ⟨"Error", "Circuit postgres is OPEN"⟩ :=
  (C9_plain_open_error cbOpen3 1500 failingCall rfl (by decide)).1

/-- Claim C10: `getState` is a pure read — it returns the current state and
leaves every field of the breaker unchanged; in particular an Open breaker
keeps reporting Open through `getState` even arbitrarily long after
`timeout` has elapsed, since only `execute` performs the Open-to-HalfOpen
transition. -/
theorem C10_getState_frame (cb : CircuitBreaker) :
    (getState cb = (cb.state, cb)) ∧
    ((getState cb).1 = CircuitState.OPEN ↔ cb.state = CircuitState.OPEN) ∧
    (∀ now : Nat, cb.state = CircuitState.OPEN →
      now - cb.lastFailureTime > cb.timeout →
      getState cb = (CircuitState.OPEN, cb)) := by
  refine ⟨rfl, Iff.rfl, ?_⟩
  intro now h _
  rw [getState, h]

/-- Witness for C10: a stale open breaker still reports Open from
`getState`. -/
theorem C10_witness : getState cbOpenStale = (CircuitState.OPEN, cbOpenStale) :=
  (C10_getState_frame cbOpenStale).2.2 25000 rfl (by decide)

/-! ### Helper lemmas about the write queue -/

theorem successOutcomes_fst (batch : List WriteJob) (rows : List User) (k : Nat) :
    (successOutcomes batch rows k).map Prod.fst = batch := by
  induction batch generalizing k with
  | nil => rfl
  | cons j js ih =>
    by_cases h : j.jobType = JobType.create <;>
      simp [successOutcomes, h, ih]

theorem successOutcomes_create_resolved (batch : List WriteJob) (rows : List User)
    (k : Nat) (j : WriteJob) (res : Resolution)
    (hmem : (j, res) ∈ successOutcomes batch rows k)
    (hj : j.jobType = JobType.create) :
    ∃ o, res = Resolution.resolvedWith o := by
  induction batch generalizing k with
  | nil => simp [successOutcomes] at hmem
  | cons b bs ih =>
    by_cases h : b.jobType = JobType.create
    · rw [successOutcomes, if_pos h] at hmem
      rcases List.mem_cons.mp hmem with heq | htail
      · exact ⟨rows[k]?, ((Prod.mk.injEq _ _ _ _).mp heq).2⟩
      · exact ih _ htail
    · rw [successOutcomes, if_neg h] at hmem
      rcases List.mem_cons.mp hmem with heq | htail
      · obtain ⟨hb, _⟩ := (Prod.mk.injEq _ _ _ _).mp heq
        exact absurd (hb ▸ hj) h
      · exact ih _ htail

theorem successOutcomes_noncreate_unresolved (batch : List WriteJob)
    (rows : List User) (k : Nat) (j : WriteJob) (res : Resolution)
    (hmem : (j, res) ∈ successOutcomes batch rows k)
    (hj : j.jobType ≠ JobType.create) :
    res = Resolution.unresolved := by
  induction batch generalizing k with
  | nil => simp [successOutcomes] at hmem
  | cons b bs ih =>
    by_cases h : b.jobType = JobType.create
    · rw [successOutcomes, if_pos h] at hmem
      rcases List.mem_cons.mp hmem with heq | htail
      · obtain ⟨hb, _⟩ := (Prod.mk.injEq _ _ _ _).mp heq
        exact absurd (hb ▸ h) hj
      · exact ih _ htail
    · rw [successOutcomes, if_neg h] at hmem
      rcases List.mem_cons.mp hmem with heq | htail
      · exact ((Prod.mk.injEq _ _ _ _).mp heq).2
      · exact ih _ htail

theorem createResolutions_successOutcomes (batch : List WriteJob)
    (rows : List User) (k i : Nat) :
    (createResolutions (successOutcomes batch rows k))[i]? =
      if i < (batch.filter (fun j => j.jobType = JobType.create)).length then
        some (Resolution.resolvedWith rows[k + i]?)
      else none := by
  induction batch generalizing k i with
  | nil => simp [successOutcomes, createResolutions]
  | cons b bs ih =>
    by_cases h : b.jobType = JobType.create
    · cases i with
      | zero => simp [successOutcomes, createResolutions, h]
      | succ n =>
        rw [successOutcomes, if_pos h]
        have hstep : (createResolutions
            ((b, Resolution.resolvedWith rows[k]?) ::
              successOutcomes bs rows (k + 1)))[n + 1]? =
            (createResolutions (successOutcomes bs rows (k + 1)))[n]? := by
          simp [createResolutions, h]
        rw [hstep, ih]
        have harith : k + (n + 1) = k + 1 + n := by omega
        rw [harith]
        have hlen : (List.filter (fun j => j.jobType = JobType.create)
            (b :: bs)).length =
            (List.filter (fun j => j.jobType = JobType.create) bs).length + 1 := by
          simp [h]
        rw [hlen]
        simp
    · rw [successOutcomes, if_neg h]
      have hstep : (createResolutions
          ((b, Resolution.unresolved) :: successOutcomes bs rows k))[i]? =
          (createResolutions (successOutcomes bs rows k))[i]? := by
        simp [createResolutions, h]
      rw [hstep, ih]
      simp [h]

theorem flush_cond_false (s : WQState) (h1 : s.flushing = false)
    (h2 : s.queue ≠ []) : ¬ (s.flushing = true ∨ s.queue = []) := by
  rintro (hc | hc)
  · rw [h1] at hc
    exact Bool.false_ne_true hc
  · exact h2 hc

theorem flush_noop (s : WQState)
    (b : List Payload → Except JSError (List User))
    (h : s.flushing = true ∨ s.queue = []) : flush s b = ⟨s, []⟩ := by
  unfold flush
  rw [if_pos h]

theorem flush_no_creates (s : WQState)
    (b : List Payload → Except JSError (List User))
    (h1 : s.flushing = false) (h2 : s.queue ≠ [])
    (hc : (s.queue.take BATCH_SIZE).filter
      (fun j => j.jobType = JobType.create) = []) :
    flush s b = ⟨⟨s.queue.drop BATCH_SIZE, false⟩,
      (s.queue.take BATCH_SIZE).map (fun j => (j, Resolution.unresolved))⟩ := by
  unfold flush
  rw [if_neg (flush_cond_false s h1 h2)]
  dsimp only
  rw [if_pos hc]

theorem flush_bulk_ok (s : WQState)
    (b : List Payload → Except JSError (List User)) (rows : List User)
    (h1 : s.flushing = false) (h2 : s.queue ≠ [])
    (hc : (s.queue.take BATCH_SIZE).filter
      (fun j => j.jobType = JobType.create) ≠ [])
    (hb : b (((s.queue.take BATCH_SIZE).filter
        (fun j => j.jobType = JobType.create)).map (fun j => j.payload)) =
      Except.ok rows) :
    flush s b = ⟨⟨s.queue.drop BATCH_SIZE, false⟩,
      successOutcomes (s.queue.take BATCH_SIZE) rows 0⟩ := by
  unfold flush
  rw [if_neg (flush_cond_false s h1 h2)]
  dsimp only
  rw [if_neg hc, hb]

theorem flush_bulk_error (s : WQState)
    (b : List Payload → Except JSError (List User)) (e : JSError)
    (h1 : s.flushing = false) (h2 : s.queue ≠ [])
    (hc : (s.queue.take BATCH_SIZE).filter
      (fun j => j.jobType = JobType.create) ≠ [])
    (hb : b (((s.queue.take BATCH_SIZE).filter
        (fun j => j.jobType = JobType.create)).map (fun j => j.payload)) =
      Except.error e) :
    flush s b = ⟨⟨s.queue.drop BATCH_SIZE, false⟩,
      (s.queue.take BATCH_SIZE).map (fun j => (j, Resolution.rejectedWith e))⟩ := by
  unfold flush
  rw [if_neg (flush_cond_false s h1 h2)]
  dsimp only
  rw [if_neg hc, hb]


theorem map_fst_pair (l : List WriteJob) (f : WriteJob → Resolution) :
    (l.map (fun j => (j, f j))).map Prod.fst = l := by
  induction l with
  | nil => rfl
  | cons a as ih => simp [ih]

theorem flush_active_frame (s : WQState)
    (b : List Payload → Except JSError (List User))
    (h1 : s.flushing = false) (h2 : s.queue ≠ []) :
    (flush s b).outcomes.map Prod.fst = s.queue.take BATCH_SIZE ∧
    (flush s b).st = ⟨s.queue.drop BATCH_SIZE, false⟩ := by
  by_cases hc : (s.queue.take BATCH_SIZE).filter
      (fun j => j.jobType = JobType.create) = []
  · rw [flush_no_creates s b h1 h2 hc]
    exact ⟨map_fst_pair _ (fun _ => Resolution.unresolved), rfl⟩
  · cases hb : b (((s.queue.take BATCH_SIZE).filter
        (fun j => j.jobType = JobType.create)).map (fun j => j.payload)) with
    | ok rows =>
      rw [flush_bulk_ok s b rows h1 h2 hc hb]
      exact ⟨successOutcomes_fst _ rows 0, rfl⟩
    | error e =>
      rw [flush_bulk_error s b e h1 h2 hc hb]
      exact ⟨map_fst_pair _ (fun _ => Resolution.rejectedWith e), rfl⟩

theorem flush_active_lengths (s : WQState)
    (b : List Payload → Except JSError (List User))
    (h1 : s.flushing = false) (h2 : s.queue ≠ []) :
    (flush s b).outcomes.length = min BATCH_SIZE s.queue.length ∧
    (flush s b).st.queue.length = s.queue.length - BATCH_SIZE ∧
    (flush s b).st.flushing = false := by
  obtain ⟨hm, hst⟩ := flush_active_frame s b h1 h2
  refine ⟨?_, ?_, ?_⟩
  · have hlm : ((flush s b).outcomes.map Prod.fst).length =
        (flush s b).outcomes.length := List.length_map _ _
    rw [← hlm, hm, List.length_take]
  · rw [hst]
    exact List.length_drop _ _
  · rw [hst]

/-! ### Write-queue claims -/

/-- Counterexample to claim C1: a single update intent is accepted, drained
into a batch, and the batch is processed by a successful flush, yet its
completion is never resolved — `flush` only resolves creates on success. -/
theorem C1_counterexample :
    flush ⟨[updateJob0], false⟩ emptyOkBackend =
      ⟨⟨[], false⟩, [(updateJob0, Resolution.unresolved)]⟩ := rfl

/-- Claim C1 as amended: once its batch is drained by a flush, a create
intent is always settled exactly once (each drained job appears exactly once
in the outcome list, and a create is never left unresolved), but an
update/delete intent is settled only when the bulk call fails (rejected with
that failure); on a successful or create-free batch it is silently dropped,
never resolved. -/
theorem C1_resolution_contract (s : WQState)
    (backend : List Payload → Except JSError (List User))
    (h1 : s.flushing = false) (h2 : s.queue ≠ []) :
    ((flush s backend).outcomes.map Prod.fst = s.queue.take BATCH_SIZE) ∧
    (∀ j res, (j, res) ∈ (flush s backend).outcomes →
      j.jobType = JobType.create → res ≠ Resolution.unresolved) ∧
    (∀ j res, (j, res) ∈ (flush s backend).outcomes →
      j.jobType ≠ JobType.create →
        res = Resolution.unresolved ∨ ∃ e, res = Resolution.rejectedWith e) := by
  refine ⟨(flush_active_frame s backend h1 h2).1, ?_, ?_⟩
  · intro j res hmem hj
    by_cases hc : (s.queue.take BATCH_SIZE).filter
        (fun x => x.jobType = JobType.create) = []
    · rw [flush_no_creates s backend h1 h2 hc] at hmem
      dsimp only at hmem
      obtain ⟨a, ha, heq⟩ := List.mem_map.mp hmem
      obtain ⟨haj, -⟩ := (Prod.mk.injEq _ _ _ _).mp heq
      have hfil : a ∈ (s.queue.take BATCH_SIZE).filter
          (fun x => x.jobType = JobType.create) :=
        List.mem_filter.mpr ⟨ha, by simp [haj, hj]⟩
      rw [hc] at hfil
      simp at hfil
    · cases hb : backend (((s.queue.take BATCH_SIZE).filter
          (fun x => x.jobType = JobType.create)).map (fun x => x.payload)) with
      | ok rows =>
        rw [flush_bulk_ok s backend rows h1 h2 hc hb] at hmem
        dsimp only at hmem
        obtain ⟨o, ho⟩ := successOutcomes_create_resolved _ rows 0 j res hmem hj
        rw [ho]
        intro hcontra
        exact Resolution.noConfusion hcontra
      | error e =>
        rw [flush_bulk_error s backend e h1 h2 hc hb] at hmem
        dsimp only at hmem
        obtain ⟨a, ha, heq⟩ := List.mem_map.mp hmem
        obtain ⟨-, hres⟩ := (Prod.mk.injEq _ _ _ _).mp heq
        rw [← hres]
        intro hcontra
        exact Resolution.noConfusion hcontra
  · intro j res hmem hj
    by_cases hc : (s.queue.take BATCH_SIZE).filter
        (fun x => x.jobType = JobType.create) = []
    · rw [flush_no_creates s backend h1 h2 hc] at hmem
      dsimp only at hmem
      obtain ⟨a, ha, heq⟩ := List.mem_map.mp hmem
      exact Or.inl ((Prod.mk.injEq _ _ _ _).mp heq).2.symm
    · cases hb : backend (((s.queue.take BATCH_SIZE).filter
          (fun x => x.jobType = JobType.create)).map (fun x => x.payload)) with
      | ok rows =>
        rw [flush_bulk_ok s backend rows h1 h2 hc hb] at hmem
        dsimp only at hmem
        exact Or.inl (successOutcomes_noncreate_unresolved _ rows 0 j res hmem hj)
      | error e =>
        rw [flush_bulk_error s backend e h1 h2 hc hb] at hmem
        dsimp only at hmem
        obtain ⟨a, ha, heq⟩ := List.mem_map.mp hmem
        exact Or.inr ⟨e, ((Prod.mk.injEq _ _ _ _).mp heq).2.symm⟩

/-- A mixed two-job queue used by the C1 witness. -/
def mixedQueue : WQState := ⟨[updateJob0, createJob0], false⟩

/-- Witness for the amended C1 on a mixed update/create batch with a
succeeding backend. -/
theorem C1_witness :
    mixedQueue.flushing = false ∧ mixedQueue.queue ≠ [] ∧
    (((flush mixedQueue okBackend).outcomes.map Prod.fst =
        mixedQueue.queue.take BATCH_SIZE) ∧
     (∀ j res, (j, res) ∈ (flush mixedQueue okBackend).outcomes →
        j.jobType = JobType.create → res ≠ Resolution.unresolved) ∧
     (∀ j res, (j, res) ∈ (flush mixedQueue okBackend).outcomes →
        j.jobType ≠ JobType.create →
          res = Resolution.unresolved ∨ ∃ e, res = Resolution.rejectedWith e)) :=
  ⟨rfl, by decide, C1_resolution_contract mixedQueue okBackend rfl (by decide)⟩

/-- Claim C2: when the bulk submission of the drained batch succeeds with an
order-preserving row list, the i-th create intent of the batch (counting
creates in submission order) is resolved with the i-th returned row. -/
theorem C2_positional_matching (s : WQState)
    (backend : List Payload → Except JSError (List User)) (rows : List User)
    (i : Nat) (h1 : s.flushing = false) (h2 : s.queue ≠ [])
    (hb : backend (((s.queue.take BATCH_SIZE).filter
        (fun j => j.jobType = JobType.create)).map (fun j => j.payload)) =
      Except.ok rows)
    (hlen : rows.length = ((s.queue.take BATCH_SIZE).filter
        (fun j => j.jobType = JobType.create)).length)
    (hi : i < rows.length) :
    (createResolutions (flush s backend).outcomes)[i]? =
      some (Resolution.resolvedWith (some (rows.get ⟨i, hi⟩))) := by
  have hc : (s.queue.take BATCH_SIZE).filter
      (fun j => j.jobType = JobType.create) ≠ [] := by
    intro hnil
    rw [hnil] at hlen
    simp at hlen
    rw [hlen] at hi
    simp at hi
  rw [flush_bulk_ok s backend rows h1 h2 hc hb]
  dsimp only
  rw [createResolutions_successOutcomes]
  rw [if_pos (by omega : i < ((s.queue.take BATCH_SIZE).filter
    (fun j => j.jobType = JobType.create)).length)]
  rw [Nat.zero_add, List.getElem?_eq_getElem hi]
  rfl

/-- Witness for C2: one create intent, backend returns one row, the intent
resolves with that row. -/
theorem C2_witness :
    (createResolutions (flush ⟨[createJob0], false⟩ okBackend).outcomes)[0]? =
      some (Resolution.resolvedWith (some u0)) :=
  C2_positional_matching ⟨[createJob0], false⟩ okBackend [u0] 0 rfl (by decide)
    rfl rfl (by decide)

/-- A backend that always throws, used by the C3 witness. -/
def failingBackend : List Payload → Except JSError (List User) :=
  fun _ => Except.error dbDownError

/-- Claim C3: when the bulk submission of a drained batch throws, every
intent of the batch is rejected with that same failure, the batch is not
re-inserted (the new pending sequence is exactly the old one minus the
batch, so later-enqueued intents are untouched and in order), and the
flushing flag is cleared so subsequent timer ticks keep flushing. -/
theorem C3_batch_failure_isolation (s : WQState)
    (backend : List Payload → Except JSError (List User)) (e : JSError)
    (h1 : s.flushing = false) (h2 : s.queue ≠ [])
    (hc : (s.queue.take BATCH_SIZE).filter
      (fun j => j.jobType = JobType.create) ≠ [])
    (hb : backend (((s.queue.take BATCH_SIZE).filter
        (fun j => j.jobType = JobType.create)).map (fun j => j.payload)) =
      Except.error e) :
    flush s backend = ⟨⟨s.queue.drop BATCH_SIZE, false⟩,
      (s.queue.take BATCH_SIZE).map (fun j => (j, Resolution.rejectedWith e))⟩ ∧
    (flush s backend).st.flushing = false ∧
    (flush s backend).st.queue = s.queue.drop BATCH_SIZE := by
  have h := flush_bulk_error s backend e h1 h2 hc hb
  exact ⟨h, by rw [h], by rw [h]⟩

/-- Witness for C3: a create+update batch whose bulk call throws; both
intents are rejected with the same error and the queue is left empty with
the flushing flag down. -/
theorem C3_witness :
    flush ⟨[createJob0, updateJob0], false⟩ failingBackend =
      ⟨⟨[], false⟩, [(createJob0, Resolution.rejectedWith dbDownError),
        (updateJob0, Resolution.rejectedWith dbDownError)]⟩ :=
  (C3_batch_failure_isolation ⟨[createJob0, updateJob0], false⟩ failingBackend
    dbDownError rfl (by decide) (by decide) rfl).1

/-- 250 create intents enqueued in order, for the C8 batching scenario. -/
def jobs250 : List WriteJob :=
  (List.range 250).map (fun n => ⟨JobType.create, p0, n⟩)

/-- The queue holding the 250 create intents, not mid-flush. -/
def st250 : WQState := ⟨jobs250, false⟩

/-- Claim C8: a flush is a no-op when one is in progress or the pending
sequence is empty; otherwise it atomically drains min(BATCH_SIZE, pending)
intents from the head, leaving exactly the remainder pending; consequently
250 enqueued create intents are processed by three flushes in batches of
100, 100 and 50, emptying the queue. -/
theorem C8_bounded_drain (s : WQState)
    (b : List Payload → Except JSError (List User)) :
    (s.flushing = true → flush s b = ⟨s, []⟩) ∧
    (s.queue = [] → flush s b = ⟨s, []⟩) ∧
    (s.flushing = false → s.queue ≠ [] →
      (flush s b).outcomes.map Prod.fst = s.queue.take BATCH_SIZE ∧
      (flush s b).st.queue = s.queue.drop BATCH_SIZE ∧
      (flush s b).st.flushing = false ∧
      (flush s b).outcomes.length = min BATCH_SIZE s.queue.length) ∧
    ((flush st250 b).outcomes.length = 100 ∧
     (flush (flush st250 b).st b).outcomes.length = 100 ∧
     (flush (flush (flush st250 b).st b).st b).outcomes.length = 50 ∧
     (flush (flush (flush st250 b).st b).st b).st.queue = []) := by
  have hscen : (flush st250 b).outcomes.length = 100 ∧
      (flush (flush st250 b).st b).outcomes.length = 100 ∧
      (flush (flush (flush st250 b).st b).st b).outcomes.length = 50 ∧
      (flush (flush (flush st250 b).st b).st b).st.queue = [] := by
    have l0 : st250.queue.length = 250 := by simp [st250, jobs250]
    have ne0 : st250.queue ≠ [] := by
      intro h
      rw [h] at l0
      simp at l0
    have f1 := flush_active_lengths st250 b rfl ne0
    have l1 : (flush st250 b).st.queue.length = 150 := by
      rw [f1.2.1, l0]
      decide
    have ne1 : (flush st250 b).st.queue ≠ [] := by
      intro h
      rw [h] at l1
      simp at l1
    have f2 := flush_active_lengths (flush st250 b).st b f1.2.2 ne1
    have l2 : (flush (flush st250 b).st b).st.queue.length = 50 := by
      rw [f2.2.1, l1]
      decide
    have ne2 : (flush (flush st250 b).st b).st.queue ≠ [] := by
      intro h
      rw [h] at l2
      simp at l2
    have f3 := flush_active_lengths (flush (flush st250 b).st b).st b f2.2.2 ne2
    have l3 : (flush (flush (flush st250 b).st b).st b).st.queue.length = 0 := by
      rw [f3.2.1, l2]
      decide
    refine ⟨?_, ?_, ?_, List.length_eq_zero.mp l3⟩
    · rw [f1.1, l0]
      decide
    · rw [f2.1, l1]
      decide
    · rw [f3.1, l2]
      decide
  refine ⟨?_, ?_, ?_, hscen⟩
  · intro h
    exact flush_noop s b (Or.inl h)
  · intro h
    exact flush_noop s b (Or.inr h)
  · intro h1 h2
    obtain ⟨hm, hst⟩ := flush_active_frame s b h1 h2
    obtain ⟨hlo, -, -⟩ := flush_active_lengths s b h1 h2
    exact ⟨hm, by rw [hst], by rw [hst], hlo⟩

/-- Witness for C8: the in-progress and empty-queue no-ops, and a drained
singleton batch. -/
theorem C8_witness :
    flush ⟨[updateJob0], true⟩ emptyOkBackend = ⟨⟨[updateJob0], true⟩, []⟩ ∧
    flush ⟨[], false⟩ emptyOkBackend = ⟨⟨[], false⟩, []⟩ ∧
    (flush ⟨[createJob0], false⟩ emptyOkBackend).outcomes.map Prod.fst =
      [createJob0] :=
  ⟨(C8_bounded_drain ⟨[updateJob0], true⟩ emptyOkBackend).1 rfl,
   (C8_bounded_drain ⟨[], false⟩ emptyOkBackend).2.1 rfl,
   ((C8_bounded_drain ⟨[createJob0], false⟩ emptyOkBackend).2.2.1 rfl
     (by decide)).1⟩

end ScaledBe
